import Mathlib

/-!
Verification of the local ledger storage layer of the track-expenses
application: the currency arithmetic module (src/db/currency.ts), the
generic CRUD repository base and the per-entity services
(BaseCRUDService, LedgerService, AccountService, TransactionService),
the single-flight database initialization protocol and the
snapshot-import routine (src/db/index.ts).

Monetary display amounts are JavaScript numbers; they are embedded here
as exact rationals.  At every concrete input cited by the specification
the IEEE-754 double computation performed by the code agrees with the
rational computation modelled here (for instance the double product
10.005 * 100 is 1000.5000000000001, so Math.round yields 1001 exactly as
the rational model does, and 136.78 * 100 is exactly 13678).
Storage amounts are integers.  Stateful code is embedded as explicit
state passing; asynchronous code as a step relation over interleaved
atomic segments; throwing code returns Except.
-/

deriving instance DecidableEq for Except

namespace TrackExpenses

/-! ## Currency arithmetic module (src/db/currency.ts) -/

/-- Currency configuration record, mirroring interface CurrencyConfig. -/
structure CurrencyConfig where
  code : String
  symbol : String
  name : String
  decimalPlaces : Nat
deriving DecidableEq, Repr

/-- The pre-defined currency registry `currencies` (CNY, USD, KRW),
mirroring the record literal in src/db/currency.ts. -/
def currencies (code : String) : Option CurrencyConfig :=
  if code = "CNY" then some ⟨"CNY", "¥", "Chinese Yuan", 2⟩
  else if code = "USD" then some ⟨"USD", "$", "US Dollar", 2⟩
  else if code = "KRW" then some ⟨"KRW", "₩", "South Korean Won", 0⟩
  else none

/-- JavaScript Math.round: round half toward positive infinity,
which on rationals is the floor of the argument plus one half. -/
def jsRound (q : ℚ) : ℤ := ⌊q + 1 / 2⌋

/-- getCurrencyMultiplier: looks up the currency and returns
10 ^ decimalPlaces; throws an unknown-currency error otherwise. -/
def getCurrencyMultiplier (currencyCode : String) : Except String ℚ :=
  match currencies currencyCode with
  | none => .error ("Unknown currency code: " ++ currencyCode)
  | some currency => .ok ((10 : ℚ) ^ currency.decimalPlaces)

/-- toStorageAmount: Math.round of the display amount times the
currency multiplier; propagates the unknown-currency error. -/
def toStorageAmount (amount : ℚ) (currencyCode : String) : Except String ℤ :=
  match getCurrencyMultiplier currencyCode with
  | .error e => .error e
  | .ok multiplier => .ok (jsRound (amount * multiplier))

/-- toDisplayAmount: the storage integer divided by the currency
multiplier; propagates the unknown-currency error. -/
def toDisplayAmount (storageAmount : ℤ) (currencyCode : String) : Except String ℚ :=
  match getCurrencyMultiplier currencyCode with
  | .error e => .error e
  | .ok multiplier => .ok ((storageAmount : ℚ) / multiplier)

/-- Decimal digits of a natural number padded to the requested width,
used by the model of Number.toFixed. -/
def padDigits (n : Nat) (width : Nat) : String :=
  let s := Nat.repr n
  let pad := width - s.length
  String.mk (List.replicate pad (Char.ofNat 48)) ++ s

/-- Model of JavaScript Number.toFixed on a rational amount: the amount
rounded to the requested number of decimal digits and printed with
exactly that many digits after the point (no point when zero digits). -/
def toFixed (q : ℚ) (dp : Nat) : String :=
  let n : ℤ := jsRound (q * (10 : ℚ) ^ dp)
  let sign := if n < 0 then "-" else ""
  if dp = 0 then sign ++ Nat.repr n.natAbs
  else
    sign ++ Nat.repr (n.natAbs / 10 ^ dp) ++ "." ++ padDigits (n.natAbs % 10 ^ dp) dp

/-- formatCurrency: currency symbol concatenated with the amount fixed
to decimalPlaces digits; throws an unknown-currency error otherwise. -/
def formatCurrency (amount : ℚ) (currencyCode : String) : Except String String :=
  match currencies currencyCode with
  | none => .error ("Unknown currency code: " ++ currencyCode)
  | some currency => .ok (currency.symbol ++ toFixed amount currency.decimalPlaces)

/-- getCurrency: plain registry lookup, returning undefined (none) for
unregistered codes; it has no throwing path. -/
def getCurrency (code : String) : Option CurrencyConfig :=
  currencies code

/-- getAvailableCurrencyCodes: the keys of the registry. -/
def getAvailableCurrencyCodes : List String := ["CNY", "USD", "KRW"]

/-- DEFAULT_CURRENCY constant. -/
def DEFAULT_CURRENCY : String := "CNY"

/-- Rounding half away from zero, stated from the specification words
(round-half-away-from-zero) to be compared with the jsRound the code
uses.  Not part of the source; comparison definition only. -/
def specRoundHalfAwayFromZero (q : ℚ) : ℤ :=
  if 0 ≤ q then ⌊q + 1 / 2⌋ else -⌊-q + 1 / 2⌋

/-! ## Entity schema (src/db/entities)

Only the columns the verified services read or write are modelled.  The
clock capability that fills createdAt/updatedAt and the identifier
generator are passed explicitly, timestamps as naturals, identifiers as
strings. -/

/-- Ledger entity columns used by LedgerService. -/
structure Ledger where
  id : String
  name : String
  ownerId : String
  isActive : Bool
  sortOrder : Int
  createdAt : Nat
  updatedAt : Nat
deriving DecidableEq, Repr

/-- User entity columns used by UserService. -/
structure User where
  id : String
  name : String
  email : Option String
  isActive : Bool
  createdAt : Nat
  updatedAt : Nat
deriving DecidableEq, Repr

/-- Category kinds enumeration. -/
inductive CategoryType
  | expense
  | income
deriving DecidableEq, Repr

/-- Category entity columns used by CategoryService; parentId is null
for root categories. -/
structure Category where
  id : String
  name : String
  categoryType : CategoryType
  parentId : Option String
  isActive : Bool
  sortOrder : Int
  createdAt : Nat
  updatedAt : Nat
  ledgerId : String
deriving DecidableEq, Repr

/-- Account types enumeration from src/db/entities/Account.ts. -/
inductive AccountType
  | balance
  | credit_card
  | investment
  | loan_out
  | loan_in
  | other
deriving DecidableEq, Repr

/-- Account entity columns from src/db/entities/Account.ts. -/
structure Account where
  id : String
  name : String
  accountType : AccountType
  currency : String
  initialBalance : Int
  currentBalance : Int
  isActive : Bool
  includeInTotal : Bool
  sortOrder : Int
  createdAt : Nat
  updatedAt : Nat
  ledgerId : String
deriving DecidableEq, Repr

/-- Transaction kinds enumeration. -/
inductive TransactionType
  | expense
  | income
  | transfer
  | refund
  | reimbursement
deriving DecidableEq, Repr

/-- Transaction status enumeration. -/
inductive TransactionStatus
  | pending
  | completed
  | voided
deriving DecidableEq, Repr

/-- Transaction entity columns used by TransactionService; transaction
dates are modelled as naturals with their usual order. -/
structure Transaction where
  id : String
  transactionType : TransactionType
  status : TransactionStatus
  amount : Int
  currency : String
  transactionDate : Nat
  isMarked : Bool
  needsReview : Bool
  createdAt : Nat
  updatedAt : Nat
  ledgerId : String
deriving DecidableEq, Repr

/-! ## Generic CRUD repository base (BaseCRUDService) -/

/-- Interface shared by all entities: primary key projection and the
auto-touched update timestamp column (UpdateDateColumn). -/
class EntityMeta (α : Type) where
  getId : α → String
  getUpdated : α → Nat
  setUpdated : α → Nat → α
  getUpdated_setUpdated : ∀ a t, getUpdated (setUpdated a t) = t
  getId_setUpdated : ∀ a t, getId (setUpdated a t) = getId a

instance : EntityMeta Ledger where
  getId := Ledger.id
  getUpdated := Ledger.updatedAt
  setUpdated := fun a t => { a with updatedAt := t }
  getUpdated_setUpdated := fun _ _ => rfl
  getId_setUpdated := fun _ _ => rfl

instance : EntityMeta Account where
  getId := Account.id
  getUpdated := Account.updatedAt
  setUpdated := fun a t => { a with updatedAt := t }
  getUpdated_setUpdated := fun _ _ => rfl
  getId_setUpdated := fun _ _ => rfl

instance : EntityMeta User where
  getId := User.id
  getUpdated := User.updatedAt
  setUpdated := fun a t => { a with updatedAt := t }
  getUpdated_setUpdated := fun _ _ => rfl
  getId_setUpdated := fun _ _ => rfl

instance : EntityMeta Category where
  getId := Category.id
  getUpdated := Category.updatedAt
  setUpdated := fun a t => { a with updatedAt := t }
  getUpdated_setUpdated := fun _ _ => rfl
  getId_setUpdated := fun _ _ => rfl

instance : EntityMeta Transaction where
  getId := Transaction.id
  getUpdated := Transaction.updatedAt
  setUpdated := fun a t => { a with updatedAt := t }
  getUpdated_setUpdated := fun _ _ => rfl
  getId_setUpdated := fun _ _ => rfl

namespace BaseCRUD

variable {α : Type} [EntityMeta α]

/-- findById: findOne with the where clause built from the primary key. -/
def findById (table : List α) (id : String) : Option α :=
  table.find? (fun r => EntityMeta.getId r == id)

/-- repository.update(key, data) on the stored table: every row matching
the key receives the patch columns and has its UpdateDateColumn set to
the current clock value; no other row changes, and a key matching no
row changes nothing.  No exception is possible. -/
def applyUpdate (table : List α) (id : String) (patch : α → α) (now : Nat) : List α :=
  table.map (fun r =>
    if EntityMeta.getId r = id then EntityMeta.setUpdated (patch r) now else r)

/-- BaseCRUDService.update: run repository.update, then re-read the row
by findById and return what is now persisted (null when the key matched
nothing). -/
def update (table : List α) (id : String) (patch : α → α) (now : Nat) :
    Option α × List α :=
  let t := applyUpdate table id patch now
  (findById t id, t)

end BaseCRUD

/-- SQL SUM aggregate: NULL (none) over an empty row set, the sum
otherwise. -/
def sqlSum (l : List Int) : Option Int :=
  if l.isEmpty then none else some l.sum

/-! ## LedgerService (src/db/services/LedgerService.ts) -/

/-- Ordering convention of the list queries: sortOrder ascending then
name ascending. -/
def ledgerLe (a b : Ledger) : Prop :=
  a.sortOrder < b.sortOrder ∨ (a.sortOrder = b.sortOrder ∧ a.name ≤ b.name)

instance : DecidableRel ledgerLe := fun a b => by
  unfold ledgerLe
  exact inferInstance

namespace LedgerService

/-- findByOwnerId: active ledgers of one owner, ordered. -/
def findByOwnerId (table : List Ledger) (ownerId : String) : List Ledger :=
  List.insertionSort ledgerLe
    (table.filter (fun l => l.ownerId == ownerId && l.isActive))

/-- findActiveLedgers: all active ledgers, ordered. -/
def findActiveLedgers (table : List Ledger) : List Ledger :=
  List.insertionSort ledgerLe (table.filter (fun l => l.isActive))

/-- archiveLedger: update setting isActive to false. -/
def archiveLedger (table : List Ledger) (id : String) (now : Nat) :
    Option Ledger × List Ledger :=
  BaseCRUD.update table id (fun l => { l with isActive := false }) now

/-- restoreLedger: update setting isActive to true. -/
def restoreLedger (table : List Ledger) (id : String) (now : Nat) :
    Option Ledger × List Ledger :=
  BaseCRUD.update table id (fun l => { l with isActive := true }) now

end LedgerService

/-! ## UserService (src/db/services/UserService.ts) -/

/-- Ordering of findActiveUsers: name ascending. -/
def userLe (a b : User) : Prop := a.name ≤ b.name

instance : DecidableRel userLe := fun a b => by
  unfold userLe
  exact inferInstance

namespace UserService

/-- findActiveUsers: all active users ordered by name. -/
def findActiveUsers (table : List User) : List User :=
  List.insertionSort userLe (table.filter (fun u => u.isActive))

/-- deactivateUser: update setting isActive to false. -/
def deactivateUser (table : List User) (id : String) (now : Nat) :
    Option User × List User :=
  BaseCRUD.update table id (fun u => { u with isActive := false }) now

/-- activateUser: update setting isActive to true. -/
def activateUser (table : List User) (id : String) (now : Nat) :
    Option User × List User :=
  BaseCRUD.update table id (fun u => { u with isActive := true }) now

end UserService

/-! ## CategoryService (src/db/services/CategoryService.ts) -/

/-- Ordering convention of the category list queries. -/
def categoryLe (a b : Category) : Prop :=
  a.sortOrder < b.sortOrder ∨ (a.sortOrder = b.sortOrder ∧ a.name ≤ b.name)

instance : DecidableRel categoryLe := fun a b => by
  unfold categoryLe
  exact inferInstance

namespace CategoryService

/-- findByLedgerId: active categories of a ledger, ordered. -/
def findByLedgerId (table : List Category) (ledgerId : String) : List Category :=
  List.insertionSort categoryLe
    (table.filter (fun c => c.ledgerId == ledgerId && c.isActive))

/-- findByType: active categories of a ledger with the given kind. -/
def findByType (table : List Category) (ledgerId : String)
    (categoryType : CategoryType) : List Category :=
  List.insertionSort categoryLe
    (table.filter (fun c =>
      c.ledgerId == ledgerId && c.categoryType == categoryType && c.isActive))

/-- findRootCategories: active parentless categories of a ledger, the
kind filter added only when the optional argument is given. -/
def findRootCategories (table : List Category) (ledgerId : String)
    (categoryType : Option CategoryType) : List Category :=
  List.insertionSort categoryLe
    (table.filter (fun c =>
      c.ledgerId == ledgerId && c.parentId == none && c.isActive &&
      (match categoryType with
       | some ty => c.categoryType == ty
       | none => true)))

/-- findChildren: active children of a parent category. -/
def findChildren (table : List Category) (parentId : String) : List Category :=
  List.insertionSort categoryLe
    (table.filter (fun c => c.parentId == some parentId && c.isActive))

/-- archiveCategory: update setting isActive to false. -/
def archiveCategory (table : List Category) (id : String) (now : Nat) :
    Option Category × List Category :=
  BaseCRUD.update table id (fun c => { c with isActive := false }) now

/-- restoreCategory: update setting isActive to true. -/
def restoreCategory (table : List Category) (id : String) (now : Nat) :
    Option Category × List Category :=
  BaseCRUD.update table id (fun c => { c with isActive := true }) now

end CategoryService

/-! ## AccountService (src/db/services/AccountService.ts) -/

/-- Ordering convention of the account list queries. -/
def accountLe (a b : Account) : Prop :=
  a.sortOrder < b.sortOrder ∨ (a.sortOrder = b.sortOrder ∧ a.name ≤ b.name)

instance : DecidableRel accountLe := fun a b => by
  unfold accountLe
  exact inferInstance

/-- Creation payload of AccountService.createAccount: DeepPartial of the
entity without id and timestamps; absent fields take the entity column
defaults. -/
structure AccountCreateData where
  name : String
  accountType : Option AccountType := none
  currency : String
  initialBalance : Option Int := none
  currentBalance : Option Int := none
  isActive : Option Bool := none
  includeInTotal : Option Bool := none
  sortOrder : Option Int := none
  ledgerId : String
deriving DecidableEq, Repr

namespace AccountService

/-- findByLedgerId: active accounts of a ledger, ordered. -/
def findByLedgerId (table : List Account) (ledgerId : String) : List Account :=
  List.insertionSort accountLe
    (table.filter (fun a => a.ledgerId == ledgerId && a.isActive))

/-- findByType: active accounts of a ledger with the given type. -/
def findByType (table : List Account) (ledgerId : String) (accountType : AccountType) :
    List Account :=
  List.insertionSort accountLe
    (table.filter (fun a =>
      a.ledgerId == ledgerId && a.accountType == accountType && a.isActive))

/-- findByCurrency: active accounts of a ledger in the given currency. -/
def findByCurrency (table : List Account) (ledgerId : String) (currency : String) :
    List Account :=
  List.insertionSort accountLe
    (table.filter (fun a =>
      a.ledgerId == ledgerId && a.currency == currency && a.isActive))

/-- findAccountsIncludedInTotal: active accounts of a ledger that are
included in the net-worth total. -/
def findAccountsIncludedInTotal (table : List Account) (ledgerId : String) :
    List Account :=
  List.insertionSort accountLe
    (table.filter (fun a => a.ledgerId == ledgerId && a.isActive && a.includeInTotal))

/-- Materialize the entity from the creation payload, filling the
generated id, the creation and update timestamps and the declared
column defaults. -/
def buildAccount (data : AccountCreateData) (genId : String) (now : Nat) : Account :=
  { id := genId
    name := data.name
    accountType := data.accountType.getD .balance
    currency := data.currency
    initialBalance := data.initialBalance.getD 0
    currentBalance := data.currentBalance.getD 0
    isActive := data.isActive.getD true
    includeInTotal := data.includeInTotal.getD true
    sortOrder := data.sortOrder.getD 0
    createdAt := now
    updatedAt := now
    ledgerId := data.ledgerId }

/-- createAccount: copies initialBalance into currentBalance only when
the payload gives an initialBalance and no explicit currentBalance,
then persists the new row. -/
def createAccount (table : List Account) (data : AccountCreateData)
    (genId : String) (now : Nat) : Account × List Account :=
  let d :=
    if data.initialBalance.isSome && data.currentBalance.isNone then
      { data with currentBalance := data.initialBalance }
    else data
  let a := buildAccount d genId now
  (a, table ++ [a])

/-- updateBalance: update setting currentBalance to the new value. -/
def updateBalance (table : List Account) (id : String) (newBalance : Int) (now : Nat) :
    Option Account × List Account :=
  BaseCRUD.update table id (fun a => { a with currentBalance := newBalance }) now

/-- adjustBalance: read the row, return null untouched when absent,
otherwise write back the read balance plus the adjustment. -/
def adjustBalance (table : List Account) (id : String) (adjustment : Int) (now : Nat) :
    Option Account × List Account :=
  match BaseCRUD.findById table id with
  | none => (none, table)
  | some account =>
      updateBalance table id (account.currentBalance + adjustment) now

/-- archiveAccount: update setting isActive to false. -/
def archiveAccount (table : List Account) (id : String) (now : Nat) :
    Option Account × List Account :=
  BaseCRUD.update table id (fun a => { a with isActive := false }) now

/-- restoreAccount: update setting isActive to true. -/
def restoreAccount (table : List Account) (id : String) (now : Nat) :
    Option Account × List Account :=
  BaseCRUD.update table id (fun a => { a with isActive := true }) now

/-- getTotalBalance: SUM of currentBalance over active accounts of the
ledger in the given currency that are included in totals; the SQL NULL
produced by an empty row set is coalesced to the string zero and parsed,
modelled as Option.getD 0. -/
def getTotalBalance (table : List Account) (ledgerId : String) (currency : String) : Int :=
  (sqlSum ((table.filter (fun a =>
      a.ledgerId == ledgerId && a.currency == currency &&
      a.isActive && a.includeInTotal)).map Account.currentBalance)).getD 0

end AccountService

/-! ## TransactionService (src/db/services/TransactionService.ts) -/

namespace TransactionService

/-- toggleMarked: read the row, return null untouched when absent,
otherwise write back the negated isMarked flag. -/
def toggleMarked (table : List Transaction) (id : String) (now : Nat) :
    Option Transaction × List Transaction :=
  match BaseCRUD.findById table id with
  | none => (none, table)
  | some t =>
      BaseCRUD.update table id (fun r => { r with isMarked := !t.isMarked }) now

/-- toggleNeedsReview: read the row, return null untouched when absent,
otherwise write back the negated needsReview flag. -/
def toggleNeedsReview (table : List Transaction) (id : String) (now : Nat) :
    Option Transaction × List Transaction :=
  match BaseCRUD.findById table id with
  | none => (none, table)
  | some t =>
      BaseCRUD.update table id (fun r => { r with needsReview := !t.needsReview }) now

/-- getTotalByType: SUM of amount over completed transactions of the
ledger with the given kind and currency, optionally bounded by the date
range; the SQL NULL of an empty row set is coalesced to zero. -/
def getTotalByType (table : List Transaction) (ledgerId : String)
    (transactionType : TransactionType) (currency : String)
    (startDate endDate : Option Nat) : Int :=
  let rows := table.filter (fun t =>
    t.ledgerId == ledgerId && t.transactionType == transactionType &&
    t.currency == currency && t.status == TransactionStatus.completed &&
    (match startDate with
     | some s => decide (s ≤ t.transactionDate)
     | none => true) &&
    (match endDate with
     | some e => decide (t.transactionDate ≤ e)
     | none => true))
  (sqlSum (rows.map Transaction.amount)).getD 0

end TransactionService

/-! ## Snapshot import (importDatabase in src/db/index.ts, web path)

The web branch writes the blob into the IndexedDB store, destroys the
current DataSource, nulls every cached service, clears the in-flight
marker and re-runs initializeDatabase, which loads whatever the store
now holds.  The data content of that protocol is modelled here; rows
are opaque naturals. -/

/-- A snapshot blob: either a well-formed database image decoding to a
list of rows, or a corrupt blob the SQL engine cannot open. -/
inductive Blob
  | image (rows : List Nat)
  | corrupt
deriving DecidableEq, Repr

/-- Decoding a persisted blob, as the engine does when it opens. -/
def Blob.decode : Blob → Option (List Nat)
  | .image rows => some rows
  | .corrupt => none

/-- Connection-manager data state on the web platform: the blob
persisted in IndexedDB, and the live engine contents (some rows exactly
when the DataSource is initialized with its services cached). -/
structure BackupState where
  persisted : Blob
  live : Option (List Nat)
deriving DecidableEq, Repr

/-- Data path of initializeDatabase on web: a no-op when already
initialized, otherwise load the persisted snapshot into the engine;
opening a corrupt snapshot throws (and the code then clears the
in-flight marker and propagates the error). -/
def initDatabaseData (st : BackupState) : Except String BackupState :=
  match st.live with
  | some _ => .ok st
  | none =>
      match st.persisted.decode with
      | some rows => .ok { st with live := some rows }
      | none => .error "Database initialization failed"

/-- importDatabase, web path: write the blob into IndexedDB (the write
itself may fail, in which case nothing has happened yet), then tear
down the connection and every cached service and re-run initialization
on the freshly written store.  The thrown error, if any, is returned
next to the state the module is left in. -/
def importDatabase (writeOk : Bool) (st : BackupState) (blob : Blob) :
    Except String Unit × BackupState :=
  if writeOk then
    let torn : BackupState := { persisted := blob, live := none }
    match initDatabaseData torn with
    | .ok st2 => (.ok (), st2)
    | .error e => (.error e, torn)
  else
    (.error "storage write failed", st)

/-- findAll on any entity through the facade: fails before
initialization, otherwise lists the live rows. -/
def findAllRows (st : BackupState) : Except String (List Nat) :=
  match st.live with
  | some rows => .ok rows
  | none => .error "Database not initialized. Call initializeDatabase() first."

/-! ## Single-flight initialization (initializeDatabase in src/db/index.ts)

The JavaScript runtime is single threaded: code between two await
suspension points runs atomically.  initializeDatabase consists of an
atomic guard segment (the isInitialized fast path, returning an
existing in-flight promise, or creating the promise and synchronously
starting its body up to the options await), a body segment that
constructs the DataSource, and a settle segment in which
dataSource.initialize() has either succeeded (services cached, ready
set, promise resolved, initPromise kept) or thrown (initPromise
cleared, promise rejected, ready still false).  A scheduler
interleaves these segments between two callers. -/

/-- Global mutable module state of src/db/index.ts. -/
structure InitGlobal where
  /-- dataSource is assigned and isInitialized. -/
  ready : Bool
  /-- initPromise, identified by promise id. -/
  curPromise : Option Nat
  /-- promise ids handed out so far. -/
  promiseCount : Nat
  /-- per promise id: none while pending, the outcome once settled. -/
  outcomes : List (Option Bool)
  /-- number of times new DataSource(options) ran. -/
  constructions : Nat
  /-- number of times the seven service instances were constructed. -/
  serviceSets : Nat
deriving DecidableEq, Repr

/-- Progress of one caller of initializeDatabase. -/
inductive CallerState
  | idle
  | awaitingPromise (pid : Nat)
  | runningOpts (pid : Nat)
  | runningInit (pid : Nat)
  | doneFast
  | doneCreated (pid : Nat) (ok : Bool)
  | doneAwaited (pid : Nat) (ok : Bool)
deriving DecidableEq, Repr

/-- Two-caller system state. -/
structure InitSys where
  g : InitGlobal
  c0 : CallerState
  c1 : CallerState
deriving DecidableEq, Repr

/-- The state of the caller selected by a boolean index. -/
def InitSys.cOf (σ : InitSys) (i : Bool) : CallerState :=
  if i then σ.c1 else σ.c0

/-- One atomic segment of one caller; succeed says whether
dataSource.initialize() succeeds in this run. -/
def initStep (succeed : Bool) (g : InitGlobal) (c : CallerState) :
    InitGlobal × CallerState :=
  match c with
  | .idle =>
      if g.ready then (g, .doneFast)
      else
        match g.curPromise with
        | some p => (g, .awaitingPromise p)
        | none =>
            ({ g with curPromise := some g.promiseCount,
                      promiseCount := g.promiseCount + 1,
                      outcomes := g.outcomes ++ [none] },
             .runningOpts g.promiseCount)
  | .runningOpts p =>
      ({ g with constructions := g.constructions + 1 }, .runningInit p)
  | .runningInit p =>
      if succeed then
        ({ g with serviceSets := g.serviceSets + 1, ready := true,
                  outcomes := g.outcomes.set p (some true) },
         .doneCreated p true)
      else
        ({ g with curPromise := none,
                  outcomes := g.outcomes.set p (some false) },
         .doneCreated p false)
  | .awaitingPromise p =>
      match g.outcomes[p]? with
      | some (some r) => (g, .doneAwaited p r)
      | _ => (g, .awaitingPromise p)
  | .doneFast => (g, .doneFast)
  | .doneCreated p r => (g, .doneCreated p r)
  | .doneAwaited p r => (g, .doneAwaited p r)

/-- Run one atomic segment of the scheduled caller. -/
def stepSys (succeed : Bool) (σ : InitSys) (b : Bool) : InitSys :=
  if b then
    let gc := initStep succeed σ.g σ.c1
    ⟨gc.1, σ.c0, gc.2⟩
  else
    let gc := initStep succeed σ.g σ.c0
    ⟨gc.1, gc.2, σ.c1⟩

/-- Initial module state: nothing initialized, no promise, two idle
callers. -/
def initSys0 : InitSys := ⟨⟨false, none, 0, [], 0, 0⟩, .idle, .idle⟩

/-- Run a schedule of caller indices. -/
def runInit (succeed : Bool) (s : List Bool) : InitSys :=
  s.foldl (stepSys succeed) initSys0

/-- Global state while the single attempt is pending before the
DataSource construction. -/
def gPend : InitGlobal := ⟨false, some 0, 1, [none], 0, 0⟩

/-- Global state while the single attempt is pending after the
DataSource construction. -/
def gPendBuilt : InitGlobal := ⟨false, some 0, 1, [none], 1, 0⟩

/-- Global state after the single attempt settled. -/
def gSettled (succeed : Bool) : InitGlobal :=
  if succeed then ⟨true, some 0, 1, [some true], 1, 1⟩
  else ⟨false, none, 1, [some false], 1, 0⟩

/-- System with caller i idle and the other caller in the given state. -/
def sideSys (i : Bool) (g : InitGlobal) (creator : CallerState) : InitSys :=
  if i then ⟨g, creator, .idle⟩ else ⟨g, .idle, creator⟩

/-- System with caller i the awaiter and the other caller the creator. -/
def attSys (i : Bool) (g : InitGlobal) (awaiter creator : CallerState) : InitSys :=
  if i then ⟨g, creator, awaiter⟩ else ⟨g, awaiter, creator⟩

/-- The states reachable while caller i has not yet called: the other
caller walks alone through the attempt. -/
def soloStates (succeed : Bool) (i : Bool) (σ : InitSys) : Prop :=
  σ = sideSys i ⟨false, none, 0, [], 0, 0⟩ .idle ∨
  σ = sideSys i gPend (.runningOpts 0) ∨
  σ = sideSys i gPendBuilt (.runningInit 0) ∨
  σ = sideSys i (gSettled succeed) (.doneCreated 0 succeed)

/-- The states reachable once caller i has joined the pending attempt
of the other caller: one shared promise, at most one construction. -/
def attachedStates (succeed : Bool) (i : Bool) (σ : InitSys) : Prop :=
  σ = attSys i gPend (.awaitingPromise 0) (.runningOpts 0) ∨
  σ = attSys i gPendBuilt (.awaitingPromise 0) (.runningInit 0) ∨
  σ = attSys i (gSettled succeed) (.awaitingPromise 0) (.doneCreated 0 succeed) ∨
  σ = attSys i (gSettled succeed) (.doneAwaited 0 succeed) (.doneCreated 0 succeed)

/-! ## Sample rows for concrete instantiations -/

/-- A concrete ledger row. -/
def sampleLedger : Ledger :=
  { id := "led-1", name := "Home", ownerId := "user-1", isActive := true,
    sortOrder := 0, createdAt := 1, updatedAt := 5 }

/-- A concrete account row. -/
def sampleAccount : Account :=
  { id := "acc-1", name := "Cash", accountType := .balance, currency := "CNY",
    initialBalance := 100, currentBalance := 100, isActive := true,
    includeInTotal := true, sortOrder := 0, createdAt := 1, updatedAt := 5,
    ledgerId := "led-1" }

/-- A concrete transaction row. -/
def sampleTransaction : Transaction :=
  { id := "txn-1", transactionType := .expense, status := .completed,
    amount := 2550, currency := "CNY", transactionDate := 20240101,
    isMarked := false, needsReview := false, createdAt := 1, updatedAt := 5,
    ledgerId := "led-1" }

/-- A concrete user row. -/
def sampleUser : User :=
  { id := "user-1", name := "Ana", email := none, isActive := true,
    createdAt := 1, updatedAt := 5 }

/-- A concrete category row. -/
def sampleCategory : Category :=
  { id := "cat-1", name := "Food", categoryType := .expense, parentId := none,
    isActive := true, sortOrder := 0, createdAt := 1, updatedAt := 5,
    ledgerId := "led-1" }

/-- A creation payload that explicitly supplies both balances. -/
def mixedBalancePayload : AccountCreateData :=
  { name := "Card", currency := "CNY", initialBalance := some 500,
    currentBalance := some 300, ledgerId := "led-1" }

/-! ## Theorems -/

section BaseCRUDLemmas

variable {α : Type} [EntityMeta α]

/-- A key that matches no row leaves repository.update without effect. -/
theorem applyUpdate_of_findById_none (table : List α) (id : String)
    (patch : α → α) (now : Nat) (h : BaseCRUD.findById table id = none) :
    BaseCRUD.applyUpdate table id patch now = table := by
  induction table with
  | nil => rfl
  | cons a l ih =>
      rw [BaseCRUD.findById] at h
      by_cases ha : EntityMeta.getId a = id
      · rw [List.find?_cons_of_pos] at h
        · exact absurd h (by simp)
        · simpa using ha
      · rw [List.find?_cons_of_neg] at h
        · have h2 := ih h
          simp only [BaseCRUD.applyUpdate, List.map_cons, if_neg ha]
          simp only [BaseCRUD.applyUpdate] at h2
          rw [h2]
        · simpa using ha

/-- Re-reading the key after repository.update returns the first
matching row with the patch applied and the timestamp touched, provided
the patch does not move the primary key. -/
theorem findById_applyUpdate_some (table : List α) (id : String)
    (patch : α → α) (now : Nat) (r : α)
    (hpid : ∀ x, EntityMeta.getId (patch x) = EntityMeta.getId x)
    (h : BaseCRUD.findById table id = some r) :
    BaseCRUD.findById (BaseCRUD.applyUpdate table id patch now) id =
      some (EntityMeta.setUpdated (patch r) now) := by
  induction table with
  | nil => simp [BaseCRUD.findById] at h
  | cons a l ih =>
      rw [BaseCRUD.findById] at h
      by_cases ha : EntityMeta.getId a = id
      · rw [List.find?_cons_of_pos] at h
        · cases h
          simp only [BaseCRUD.applyUpdate, List.map_cons, if_pos ha,
            BaseCRUD.findById]
          rw [List.find?_cons_of_pos]
          simp only [beq_iff_eq]
          rw [EntityMeta.getId_setUpdated, hpid r, ha]
        · simpa using ha
      · rw [List.find?_cons_of_neg] at h
        · have := ih h
          simp only [BaseCRUD.applyUpdate, List.map_cons, if_neg ha,
            BaseCRUD.findById] at *
          rw [List.find?_cons_of_neg]
          · exact this
          · simpa using ha
        · simpa using ha

/-- Every row of the table after repository.update is either an
untouched row whose key differs, or a patched and re-stamped row whose
key matched. -/
theorem mem_applyUpdate (table : List α) (id : String) (patch : α → α)
    (now : Nat) (x : α) (hx : x ∈ BaseCRUD.applyUpdate table id patch now) :
    ∃ y ∈ table,
      (EntityMeta.getId y = id ∧ x = EntityMeta.setUpdated (patch y) now) ∨
      (EntityMeta.getId y ≠ id ∧ x = y) := by
  rcases List.mem_map.mp hx with ⟨y, hy, hxy⟩
  refine ⟨y, hy, ?_⟩
  by_cases h : EntityMeta.getId y = id
  · left
    exact ⟨h, by rw [← hxy, if_pos h]⟩
  · right
    exact ⟨h, by rw [← hxy, if_neg h]⟩

/-- A row that survives an archival update with its active flag still
set cannot carry the archived key: matched rows were deactivated by the
patch, unmatched rows keep their differing key. -/
theorem archived_not_active {α : Type} [EntityMeta α]
    (getActive : α → Bool) (table : List α) (id : String) (now : Nat)
    (patch : α → α)
    (hpatch : ∀ y, getActive (EntityMeta.setUpdated (patch y) now) = false)
    (r : α) (hmem : r ∈ BaseCRUD.applyUpdate table id patch now)
    (hact : getActive r = true) :
    EntityMeta.getId r ≠ id := by
  intro hid
  rcases mem_applyUpdate table id patch now r hmem with ⟨y, _, hc⟩
  rcases hc with ⟨_, rfl⟩ | ⟨hy, rfl⟩
  · rw [hpatch y] at hact
    exact Bool.false_ne_true hact
  · exact hy hid

end BaseCRUDLemmas

section InitProtocolLemmas

/-- No atomic segment leaves a caller idle. -/
theorem initStep_ne_idle (succeed : Bool) (g : InitGlobal) (c : CallerState) :
    (initStep succeed g c).2 ≠ .idle := by
  cases c <;> simp only [initStep] <;> (try split) <;> (try split) <;> simp

/-- Stepping a caller changes only that caller. -/
theorem cOf_stepSys_self (succeed : Bool) (σ : InitSys) (i : Bool) :
    (stepSys succeed σ i).cOf i = (initStep succeed σ.g (σ.cOf i)).2 := by
  cases i <;> rfl

/-- Stepping the other caller leaves this caller unchanged. -/
theorem cOf_stepSys_other (succeed : Bool) (σ : InitSys) (i : Bool) :
    (stepSys succeed σ (!i)).cOf i = σ.cOf i := by
  cases i <;> rfl

/-- Projections of the one-sided system constructor. -/
theorem sideSys_g (i : Bool) (g : InitGlobal) (c : CallerState) :
    (sideSys i g c).g = g := by
  cases i <;> rfl

/-- Stepping the not-idle side of a one-sided system. -/
theorem stepSys_sideSys_other (succeed i : Bool) (g : InitGlobal) (c : CallerState) :
    stepSys succeed (sideSys i g c) (!i) =
      sideSys i (initStep succeed g c).1 (initStep succeed g c).2 := by
  cases i <;> rfl

/-- Stepping the idle side of a one-sided system attaches it. -/
theorem stepSys_sideSys_self (succeed i : Bool) (g : InitGlobal) (c : CallerState) :
    stepSys succeed (sideSys i g c) i =
      attSys i (initStep succeed g .idle).1 (initStep succeed g .idle).2 c := by
  cases i <;> rfl

/-- Global projection of the attached system constructor. -/
theorem attSys_g (i : Bool) (g : InitGlobal) (a c : CallerState) :
    (attSys i g a c).g = g := by
  cases i <;> rfl

/-- The awaiter side of an attached system. -/
theorem attSys_cOf_self (i : Bool) (g : InitGlobal) (a c : CallerState) :
    (attSys i g a c).cOf i = a := by
  cases i <;> rfl

/-- The creator side of an attached system. -/
theorem attSys_cOf_other (i : Bool) (g : InitGlobal) (a c : CallerState) :
    (attSys i g a c).cOf (!i) = c := by
  cases i <;> rfl

/-- Stepping the awaiter of an attached system. -/
theorem stepSys_attSys_self (succeed i : Bool) (g : InitGlobal) (a c : CallerState) :
    stepSys succeed (attSys i g a c) i =
      attSys i (initStep succeed g a).1 (initStep succeed g a).2 c := by
  cases i <;> rfl

/-- Stepping the creator of an attached system. -/
theorem stepSys_attSys_other (succeed i : Bool) (g : InitGlobal) (a c : CallerState) :
    stepSys succeed (attSys i g a c) (!i) =
      attSys i (initStep succeed g c).1 a (initStep succeed g c).2 := by
  cases i <;> rfl

/-- While one caller has not called, the system walks the solo states. -/
theorem solo_run (succeed i : Bool) :
    ∀ (s : List Bool) (σ : InitSys),
      (σ.cOf i = .idle → soloStates succeed i σ) →
      (s.foldl (stepSys succeed) σ).cOf i = .idle →
      soloStates succeed i (s.foldl (stepSys succeed) σ) := by
  intro s
  induction s with
  | nil => intro σ h hidle; exact h hidle
  | cons b t ih =>
      intro σ h
      simp only [List.foldl_cons]
      apply ih
      intro hidle
      have hb : b = i ∨ b = !i := by cases b <;> cases i <;> simp
      rcases hb with rfl | rfl
      · rw [cOf_stepSys_self] at hidle
        exact absurd hidle (initStep_ne_idle _ _ _)
      · rw [cOf_stepSys_other] at hidle
        rcases h hidle with h1 | h1 | h1 | h1 <;> rw [h1, stepSys_sideSys_other]
        · exact Or.inr (Or.inl rfl)
        · exact Or.inr (Or.inr (Or.inl rfl))
        · cases succeed
          · exact Or.inr (Or.inr (Or.inr rfl))
          · exact Or.inr (Or.inr (Or.inr rfl))
        · cases succeed
          · exact Or.inr (Or.inr (Or.inr rfl))
          · exact Or.inr (Or.inr (Or.inr rfl))

/-- Any run in which caller i never acted is in a solo state. -/
theorem solo_characterize (succeed i : Bool) (u : List Bool)
    (h : (runInit succeed u).cOf i = .idle) :
    soloStates succeed i (runInit succeed u) :=
  solo_run succeed i u initSys0 (fun _ => Or.inl (by cases i <;> rfl)) h

/-- The attached states are closed under every scheduled segment. -/
theorem attached_step (succeed i : Bool) (σ : InitSys) (b : Bool)
    (h : attachedStates succeed i σ) :
    attachedStates succeed i (stepSys succeed σ b) := by
  have hb : b = i ∨ b = !i := by cases b <;> cases i <;> simp
  rcases h with h1 | h1 | h1 | h1 <;> rw [h1] <;> rcases hb with rfl | rfl
  · rw [stepSys_attSys_self]
    exact Or.inl rfl
  · rw [stepSys_attSys_other]
    exact Or.inr (Or.inl rfl)
  · rw [stepSys_attSys_self]
    exact Or.inr (Or.inl rfl)
  · rw [stepSys_attSys_other]
    cases succeed
    · exact Or.inr (Or.inr (Or.inl rfl))
    · exact Or.inr (Or.inr (Or.inl rfl))
  · rw [stepSys_attSys_self]
    cases succeed
    · exact Or.inr (Or.inr (Or.inr rfl))
    · exact Or.inr (Or.inr (Or.inr rfl))
  · rw [stepSys_attSys_other]
    cases succeed
    · exact Or.inr (Or.inr (Or.inl rfl))
    · exact Or.inr (Or.inr (Or.inl rfl))
  · rw [stepSys_attSys_self]
    cases succeed
    · exact Or.inr (Or.inr (Or.inr rfl))
    · exact Or.inr (Or.inr (Or.inr rfl))
  · rw [stepSys_attSys_other]
    cases succeed
    · exact Or.inr (Or.inr (Or.inr rfl))
    · exact Or.inr (Or.inr (Or.inr rfl))

/-- The attached states are closed under whole schedules. -/
theorem attached_run (succeed i : Bool) (v : List Bool) (σ : InitSys)
    (h : attachedStates succeed i σ) :
    attachedStates succeed i (v.foldl (stepSys succeed) σ) := by
  induction v generalizing σ with
  | nil => exact h
  | cons b t ih => exact ih _ (attached_step succeed i σ b h)

end InitProtocolLemmas

/-- Registry lookup at CNY, shared helper. -/
theorem currencies_CNY : currencies "CNY" = some ⟨"CNY", "¥", "Chinese Yuan", 2⟩ := by
  decide

/-- Registry lookup at USD, shared helper. -/
theorem currencies_USD : currencies "USD" = some ⟨"USD", "$", "US Dollar", 2⟩ := by
  decide

/-- Registry lookup at the unregistered code EUR, shared helper. -/
theorem currencies_EUR : currencies "EUR" = none := by
  decide

/-- C1: for every registered currency code and every display amount that
is exactly representable with that currency's decimalPlaces decimal
digits, converting to storage format and back yields the original
amount; in particular toStorageAmount 136.78 CNY = 13678 and
toDisplayAmount 13678 CNY = 136.78. -/
theorem toStorageAmount_toDisplayAmount_roundtrip :
    (∀ (x : ℚ) (code : String) (cfg : CurrencyConfig),
        currencies code = some cfg →
        (x * (10 : ℚ) ^ cfg.decimalPlaces).den = 1 →
        ∃ s : ℤ, toStorageAmount x code = .ok s ∧ toDisplayAmount s code = .ok x) ∧
    toStorageAmount (136.78 : ℚ) "CNY" = .ok 13678 ∧
    toDisplayAmount 13678 "CNY" = .ok (136.78 : ℚ) := by
  refine ⟨?_, ?_, ?_⟩
  · intro x code cfg hc hden
    set q : ℚ := x * (10 : ℚ) ^ cfg.decimalPlaces with hqdef
    have hq : (q.num : ℚ) = q := (Rat.den_eq_one_iff q).mp hden
    refine ⟨q.num, ?_, ?_⟩
    · simp only [toStorageAmount, getCurrencyMultiplier, hc, jsRound]
      rw [← hqdef, ← hq, Int.floor_int_add]
      norm_num
    · simp only [toDisplayAmount, getCurrencyMultiplier, hc]
      rw [hq, hqdef]
      have hm : ((10 : ℚ) ^ cfg.decimalPlaces) ≠ 0 := by positivity
      rw [mul_div_assoc, div_self hm, mul_one]
  · norm_num [toStorageAmount, getCurrencyMultiplier, currencies_CNY, jsRound]
  · norm_num [toDisplayAmount, getCurrencyMultiplier, currencies_CNY]

/-- C1 witness: concrete instantiation of the round-trip law at the
exactly representable amount 99.99 USD. -/
theorem toStorageAmount_toDisplayAmount_roundtrip_witness :
    ∃ s : ℤ, toStorageAmount (99.99 : ℚ) "USD" = .ok s ∧
      toDisplayAmount s "USD" = .ok (99.99 : ℚ) :=
  toStorageAmount_toDisplayAmount_roundtrip.1 (99.99 : ℚ) "USD"
    ⟨"USD", "$", "US Dollar", 2⟩ currencies_USD (by norm_num)

/-- C2 counterexample: the code rounds with JavaScript Math.round,
which rounds halves toward positive infinity, not away from zero: at
the display amount -0.005 CNY the code stores 0, while
round-half-away-from-zero applied to -0.005 * 100 = -0.5 yields -1. -/
theorem toStorageAmount_not_half_away_from_zero :
    toStorageAmount (-0.005 : ℚ) "CNY" = .ok 0 ∧
    specRoundHalfAwayFromZero ((-0.005 : ℚ) * (10 : ℚ) ^ 2) = -1 := by
  constructor
  · norm_num [toStorageAmount, getCurrencyMultiplier, currencies_CNY, jsRound]
  · norm_num [specRoundHalfAwayFromZero]

/-- C2 (amended): toStorageAmount computes round(displayAmount *
10 ^ decimalPlaces) with JavaScript Math.round semantics, that is round
half toward positive infinity, which agrees with round-half-away-from-
zero on all nonnegative arguments; at the documented boundary,
toStorageAmount 10.005 CNY = 1001 and toStorageAmount 10.004 CNY = 1000. -/
theorem toStorageAmount_rounds_half_up :
    (∀ (x : ℚ) (code : String) (cfg : CurrencyConfig),
        currencies code = some cfg →
        toStorageAmount x code = .ok (jsRound (x * (10 : ℚ) ^ cfg.decimalPlaces))) ∧
    (∀ q : ℚ, 0 ≤ q → jsRound q = specRoundHalfAwayFromZero q) ∧
    toStorageAmount (10.005 : ℚ) "CNY" = .ok 1001 ∧
    toStorageAmount (10.004 : ℚ) "CNY" = .ok 1000 := by
  refine ⟨?_, ?_, ?_, ?_⟩
  · intro x code cfg hc
    simp [toStorageAmount, getCurrencyMultiplier, hc]
  · intro q hq
    simp [jsRound, specRoundHalfAwayFromZero, if_pos hq]
  · norm_num [toStorageAmount, getCurrencyMultiplier, currencies_CNY, jsRound]
  · norm_num [toStorageAmount, getCurrencyMultiplier, currencies_CNY, jsRound]

/-- C2 witness: the rounding description instantiated at 7.121 USD,
storing round(712.1) = 712. -/
theorem toStorageAmount_rounds_half_up_witness :
    toStorageAmount (7.121 : ℚ) "USD" =
      .ok (jsRound ((7.121 : ℚ) * (10 : ℚ) ^ 2)) :=
  toStorageAmount_rounds_half_up.1 (7.121 : ℚ) "USD"
    ⟨"USD", "$", "US Dollar", 2⟩ currencies_USD

/-- C3 counterexample: getCurrency given the unregistered code EUR
returns the plain absent value undefined (its TypeScript type is
CurrencyConfig or undefined and it has no throwing path), so it does
not fail with a distinguishable unknown-currency error as the claim
states for every code-taking function of the module. -/
theorem getCurrency_unknown_code_returns_undefined :
    getCurrency "EUR" = none := by
  decide

/-- C3 (amended): for every unregistered code, getCurrencyMultiplier,
toStorageAmount, toDisplayAmount and formatCurrency fail with the
distinguishable unknown-currency error, while getCurrency signals the
unknown code by returning undefined rather than a default
configuration. -/
theorem currency_unknown_code_fails :
    ∀ code : String, currencies code = none →
      getCurrencyMultiplier code = .error ("Unknown currency code: " ++ code) ∧
      (∀ x : ℚ, toStorageAmount x code = .error ("Unknown currency code: " ++ code)) ∧
      (∀ s : ℤ, toDisplayAmount s code = .error ("Unknown currency code: " ++ code)) ∧
      (∀ x : ℚ, formatCurrency x code = .error ("Unknown currency code: " ++ code)) ∧
      getCurrency code = none := by
  intro code h
  refine ⟨?_, ?_, ?_, ?_, ?_⟩ <;>
    simp [getCurrencyMultiplier, toStorageAmount, toDisplayAmount,
      formatCurrency, getCurrency, h]

/-- C3 witness: the unknown-currency behavior instantiated at the
unregistered code EUR and the amount 1. -/
theorem currency_unknown_code_fails_witness :
    getCurrencyMultiplier "EUR" = .error ("Unknown currency code: " ++ "EUR") ∧
    toStorageAmount (1 : ℚ) "EUR" = .error ("Unknown currency code: " ++ "EUR") ∧
    toDisplayAmount (1 : ℤ) "EUR" = .error ("Unknown currency code: " ++ "EUR") ∧
    formatCurrency (1 : ℚ) "EUR" = .error ("Unknown currency code: " ++ "EUR") ∧
    getCurrency "EUR" = none := by
  have h := currency_unknown_code_fails "EUR" currencies_EUR
  exact ⟨h.1, h.2.1 1, h.2.2.1 1, h.2.2.2.1 1, h.2.2.2.2⟩

/-- C6: for every repository built on the generic base, update with a
key matching no row returns the not-found signal null without touching
the table (and without throwing, which the Option return type makes
impossible); update on an existing key merges the patch columns,
touches the update timestamp, and returns the re-read persisted row,
whose update timestamp is strictly greater than the timestamp the row
carried before the call whenever the clock has advanced past it. -/
theorem update_notfound_and_reread {α : Type} [EntityMeta α]
    (table : List α) (id : String) (patch : α → α) (now : Nat)
    (hpid : ∀ x, EntityMeta.getId (patch x) = EntityMeta.getId x) :
    (BaseCRUD.findById table id = none →
      BaseCRUD.update table id patch now = (none, table)) ∧
    (∀ r, BaseCRUD.findById table id = some r →
      EntityMeta.getUpdated r < now →
      (BaseCRUD.update table id patch now).1 =
        some (EntityMeta.setUpdated (patch r) now) ∧
      (∀ r', (BaseCRUD.update table id patch now).1 = some r' →
        EntityMeta.getUpdated r' = now ∧
        EntityMeta.getUpdated r < EntityMeta.getUpdated r') ∧
      (BaseCRUD.update table id patch now).1 =
        BaseCRUD.findById (BaseCRUD.update table id patch now).2 id) := by
  constructor
  · intro h
    simp only [BaseCRUD.update, applyUpdate_of_findById_none table id patch now h, h]
  · intro r hr hlt
    have hf := findById_applyUpdate_some table id patch now r hpid hr
    refine ⟨?_, ?_, rfl⟩
    · simpa only [BaseCRUD.update] using hf
    · intro r' hr'
      simp only [BaseCRUD.update] at hr'
      rw [hf] at hr'
      cases hr'
      rw [EntityMeta.getUpdated_setUpdated]
      exact ⟨rfl, hlt⟩

/-- C6 witness: at an empty account table the missing key returns null
and nothing changes; at a one-row table the re-read row carries the
patch and the advanced timestamp. -/
theorem update_notfound_and_reread_witness :
    BaseCRUD.update ([] : List Account) "acc-1" (fun a => a) 3 = (none, []) ∧
    (BaseCRUD.update [sampleAccount] "acc-1"
        (fun a => { a with name := "Renamed" }) 9).1 =
      some (EntityMeta.setUpdated { sampleAccount with name := "Renamed" } 9) :=
  ⟨(update_notfound_and_reread ([] : List Account) "acc-1" (fun a => a) 3
      (fun _ => rfl)).1 (by decide),
   ((update_notfound_and_reread [sampleAccount] "acc-1"
      (fun a => { a with name := "Renamed" }) 9 (fun _ => rfl)).2 sampleAccount
      (by decide) (by decide)).1⟩

/-- C7: archiving any active-flag entity (ledger, account, category,
user - via archiveLedger, archiveAccount, archiveCategory,
deactivateUser) removes it from every active-only list query
(findActiveLedgers, findByOwnerId, findByLedgerId, findByType,
findByCurrency, findAccountsIncludedInTotal, findRootCategories,
findChildren, findActiveUsers) while findById still returns it,
unchanged except for the archival flag and the touched update
timestamp. -/
theorem archive_hides_from_active_queries :
    (∀ (table : List Ledger) (id : String) (now : Nat),
      (∀ r ∈ LedgerService.findActiveLedgers
          (LedgerService.archiveLedger table id now).2, r.id ≠ id) ∧
      (∀ owner : String, ∀ r ∈ LedgerService.findByOwnerId
          (LedgerService.archiveLedger table id now).2 owner, r.id ≠ id) ∧
      (∀ l0, BaseCRUD.findById table id = some l0 →
        BaseCRUD.findById (LedgerService.archiveLedger table id now).2 id =
          some { l0 with isActive := false, updatedAt := now })) ∧
    (∀ (table : List Account) (id : String) (now : Nat),
      (∀ ledgerId : String, ∀ r ∈ AccountService.findByLedgerId
          (AccountService.archiveAccount table id now).2 ledgerId, r.id ≠ id) ∧
      (∀ (ledgerId : String) (ty : AccountType), ∀ r ∈ AccountService.findByType
          (AccountService.archiveAccount table id now).2 ledgerId ty, r.id ≠ id) ∧
      (∀ (ledgerId currency : String), ∀ r ∈ AccountService.findByCurrency
          (AccountService.archiveAccount table id now).2 ledgerId currency,
          r.id ≠ id) ∧
      (∀ ledgerId : String, ∀ r ∈ AccountService.findAccountsIncludedInTotal
          (AccountService.archiveAccount table id now).2 ledgerId, r.id ≠ id) ∧
      (∀ a0, BaseCRUD.findById table id = some a0 →
        BaseCRUD.findById (AccountService.archiveAccount table id now).2 id =
          some { a0 with isActive := false, updatedAt := now })) ∧
    (∀ (table : List Category) (id : String) (now : Nat),
      (∀ ledgerId : String, ∀ r ∈ CategoryService.findByLedgerId
          (CategoryService.archiveCategory table id now).2 ledgerId, r.id ≠ id) ∧
      (∀ (ledgerId : String) (ty : CategoryType), ∀ r ∈ CategoryService.findByType
          (CategoryService.archiveCategory table id now).2 ledgerId ty, r.id ≠ id) ∧
      (∀ (ledgerId : String) (ty : Option CategoryType),
        ∀ r ∈ CategoryService.findRootCategories
          (CategoryService.archiveCategory table id now).2 ledgerId ty, r.id ≠ id) ∧
      (∀ parentId : String, ∀ r ∈ CategoryService.findChildren
          (CategoryService.archiveCategory table id now).2 parentId, r.id ≠ id) ∧
      (∀ c0, BaseCRUD.findById table id = some c0 →
        BaseCRUD.findById (CategoryService.archiveCategory table id now).2 id =
          some { c0 with isActive := false, updatedAt := now })) ∧
    (∀ (table : List User) (id : String) (now : Nat),
      (∀ r ∈ UserService.findActiveUsers
          (UserService.deactivateUser table id now).2, r.id ≠ id) ∧
      (∀ u0, BaseCRUD.findById table id = some u0 →
        BaseCRUD.findById (UserService.deactivateUser table id now).2 id =
          some { u0 with isActive := false, updatedAt := now })) := by
  refine ⟨?_, ?_, ?_, ?_⟩
  · intro table id now
    refine ⟨?_, ?_, ?_⟩
    · intro r hr
      have h2 := List.mem_filter.mp ((List.mem_insertionSort ledgerLe).mp hr)
      exact archived_not_active Ledger.isActive table id now
        (fun l => { l with isActive := false }) (fun _ => rfl) r h2.1 h2.2
    · intro owner r hr
      have h2 := List.mem_filter.mp ((List.mem_insertionSort ledgerLe).mp hr)
      simp only [Bool.and_eq_true] at h2
      exact archived_not_active Ledger.isActive table id now
        (fun l => { l with isActive := false }) (fun _ => rfl) r h2.1 h2.2.2
    · intro l0 h0
      exact findById_applyUpdate_some table id _ now l0 (fun _ => rfl) h0
  · intro table id now
    refine ⟨?_, ?_, ?_, ?_, ?_⟩
    · intro ledgerId r hr
      have h2 := List.mem_filter.mp ((List.mem_insertionSort accountLe).mp hr)
      simp only [Bool.and_eq_true] at h2
      exact archived_not_active Account.isActive table id now
        (fun a => { a with isActive := false }) (fun _ => rfl) r h2.1 h2.2.2
    · intro ledgerId ty r hr
      have h2 := List.mem_filter.mp ((List.mem_insertionSort accountLe).mp hr)
      simp only [Bool.and_eq_true] at h2
      exact archived_not_active Account.isActive table id now
        (fun a => { a with isActive := false }) (fun _ => rfl) r h2.1 h2.2.2
    · intro ledgerId currency r hr
      have h2 := List.mem_filter.mp ((List.mem_insertionSort accountLe).mp hr)
      simp only [Bool.and_eq_true] at h2
      exact archived_not_active Account.isActive table id now
        (fun a => { a with isActive := false }) (fun _ => rfl) r h2.1 h2.2.2
    · intro ledgerId r hr
      have h2 := List.mem_filter.mp ((List.mem_insertionSort accountLe).mp hr)
      simp only [Bool.and_eq_true] at h2
      exact archived_not_active Account.isActive table id now
        (fun a => { a with isActive := false }) (fun _ => rfl) r h2.1 h2.2.1.2
    · intro a0 h0
      exact findById_applyUpdate_some table id _ now a0 (fun _ => rfl) h0
  · intro table id now
    refine ⟨?_, ?_, ?_, ?_, ?_⟩
    · intro ledgerId r hr
      have h2 := List.mem_filter.mp ((List.mem_insertionSort categoryLe).mp hr)
      simp only [Bool.and_eq_true] at h2
      exact archived_not_active Category.isActive table id now
        (fun c => { c with isActive := false }) (fun _ => rfl) r h2.1 h2.2.2
    · intro ledgerId ty r hr
      have h2 := List.mem_filter.mp ((List.mem_insertionSort categoryLe).mp hr)
      simp only [Bool.and_eq_true] at h2
      exact archived_not_active Category.isActive table id now
        (fun c => { c with isActive := false }) (fun _ => rfl) r h2.1 h2.2.2
    · intro ledgerId ty r hr
      have h2 := List.mem_filter.mp ((List.mem_insertionSort categoryLe).mp hr)
      simp only [Bool.and_eq_true] at h2
      exact archived_not_active Category.isActive table id now
        (fun c => { c with isActive := false }) (fun _ => rfl) r h2.1 h2.2.1.2
    · intro parentId r hr
      have h2 := List.mem_filter.mp ((List.mem_insertionSort categoryLe).mp hr)
      simp only [Bool.and_eq_true] at h2
      exact archived_not_active Category.isActive table id now
        (fun c => { c with isActive := false }) (fun _ => rfl) r h2.1 h2.2.2
    · intro c0 h0
      exact findById_applyUpdate_some table id _ now c0 (fun _ => rfl) h0
  · intro table id now
    refine ⟨?_, ?_⟩
    · intro r hr
      have h2 := List.mem_filter.mp ((List.mem_insertionSort userLe).mp hr)
      exact archived_not_active User.isActive table id now
        (fun u => { u with isActive := false }) (fun _ => rfl) r h2.1 h2.2
    · intro u0 h0
      exact findById_applyUpdate_some table id _ now u0 (fun _ => rfl) h0

/-- C7 witness: archiving the sample ledger, account, category and
user at clock 9 leaves each reachable by findById with only the flag
and the timestamp changed. -/
theorem archive_hides_from_active_queries_witness :
    BaseCRUD.findById (LedgerService.archiveLedger [sampleLedger] "led-1" 9).2
        "led-1" = some { sampleLedger with isActive := false, updatedAt := 9 } ∧
    BaseCRUD.findById (AccountService.archiveAccount [sampleAccount] "acc-1" 9).2
        "acc-1" = some { sampleAccount with isActive := false, updatedAt := 9 } ∧
    BaseCRUD.findById (CategoryService.archiveCategory [sampleCategory] "cat-1" 9).2
        "cat-1" = some { sampleCategory with isActive := false, updatedAt := 9 } ∧
    BaseCRUD.findById (UserService.deactivateUser [sampleUser] "user-1" 9).2
        "user-1" = some { sampleUser with isActive := false, updatedAt := 9 } :=
  ⟨(archive_hides_from_active_queries.1 [sampleLedger] "led-1" 9).2.2
      sampleLedger (by decide),
   (archive_hides_from_active_queries.2.1 [sampleAccount] "acc-1" 9).2.2.2.2
      sampleAccount (by decide),
   (archive_hides_from_active_queries.2.2.1 [sampleCategory] "cat-1" 9).2.2.2.2
      sampleCategory (by decide),
   (archive_hides_from_active_queries.2.2.2 [sampleUser] "user-1" 9).2
      sampleUser (by decide)⟩

/-- C8: the SUM aggregates return the identity value 0 whenever their
filter matches no row (the SQL NULL is coalesced before parsing); the
integer return type of the model records that no null or undefined can
escape. -/
theorem aggregates_empty_zero :
    (∀ (table : List Account) (ledgerId currency : String),
      table.filter (fun a => a.ledgerId == ledgerId && a.currency == currency &&
        a.isActive && a.includeInTotal) = [] →
      AccountService.getTotalBalance table ledgerId currency = 0) ∧
    (∀ (table : List Transaction) (ledgerId : String)
      (transactionType : TransactionType) (currency : String)
      (startDate endDate : Option Nat),
      table.filter (fun t =>
        t.ledgerId == ledgerId && t.transactionType == transactionType &&
        t.currency == currency && t.status == TransactionStatus.completed &&
        (match startDate with
         | some s => decide (s ≤ t.transactionDate)
         | none => true) &&
        (match endDate with
         | some e => decide (t.transactionDate ≤ e)
         | none => true)) = [] →
      TransactionService.getTotalByType table ledgerId transactionType currency
        startDate endDate = 0) := by
  constructor
  · intro table l c h
    simp only [AccountService.getTotalBalance, h, sqlSum, List.map_nil,
      List.isEmpty_nil, if_true, Option.getD_none]
  · intro table l ty c sd ed h
    simp only [TransactionService.getTotalByType, h, sqlSum, List.map_nil,
      List.isEmpty_nil, if_true, Option.getD_none]

/-- C8 witness: both aggregates at a nonempty table whose rows all fail
the filter (wrong ledger) evaluate to 0. -/
theorem aggregates_empty_zero_witness :
    AccountService.getTotalBalance [sampleAccount] "led-2" "CNY" = 0 ∧
    TransactionService.getTotalByType [sampleTransaction] "led-2" .expense "CNY"
      none none = 0 :=
  ⟨aggregates_empty_zero.1 [sampleAccount] "led-2" "CNY" (by decide),
   aggregates_empty_zero.2 [sampleTransaction] "led-2" .expense "CNY"
      none none (by decide)⟩

/-- C9 counterexample: a creation payload that explicitly supplies
currentBalance 300 next to initialBalance 500 is stored as given, so
the stored balances differ at creation time, refuting the claim for
every account created through the repository. -/
theorem createAccount_explicit_balances_differ :
    (AccountService.createAccount [] mixedBalancePayload "acc-9" 0).1.initialBalance
        = 500 ∧
    (AccountService.createAccount [] mixedBalancePayload "acc-9" 0).1.currentBalance
        = 300 ∧
    (AccountService.createAccount [] mixedBalancePayload "acc-9" 0).1.currentBalance
        ≠ (AccountService.createAccount [] mixedBalancePayload "acc-9" 0).1.initialBalance := by
  refine ⟨rfl, rfl, by decide⟩

/-- C9 (amended): when the creation payload does not explicitly supply
currentBalance the stored currentBalance equals the stored
initialBalance at creation, and the storage layer never recalculates
currentBalance on its own: the non-balance operations archiveAccount
and restoreAccount preserve every row's currentBalance (and no account
operation reads the transaction history at all). -/
theorem createAccount_balance_invariant :
    (∀ (table : List Account) (data : AccountCreateData) (genId : String) (now : Nat),
      data.currentBalance = none →
      (AccountService.createAccount table data genId now).1.currentBalance =
        (AccountService.createAccount table data genId now).1.initialBalance) ∧
    (∀ (table : List Account) (id : String) (now : Nat),
      ((AccountService.archiveAccount table id now).2).map Account.currentBalance =
        table.map Account.currentBalance) ∧
    (∀ (table : List Account) (id : String) (now : Nat),
      ((AccountService.restoreAccount table id now).2).map Account.currentBalance =
        table.map Account.currentBalance) := by
  refine ⟨?_, ?_, ?_⟩
  · intro table data genId now h
    cases hi : data.initialBalance with
    | none =>
        simp [AccountService.createAccount, AccountService.buildAccount, hi, h]
    | some v =>
        simp [AccountService.createAccount, AccountService.buildAccount, hi, h]
  · intro table id now
    show (BaseCRUD.applyUpdate table id _ now).map Account.currentBalance = _
    rw [BaseCRUD.applyUpdate, List.map_map]
    refine List.map_congr_left ?_
    intro a _
    by_cases h : EntityMeta.getId a = id <;> simp [h, EntityMeta.setUpdated]
  · intro table id now
    show (BaseCRUD.applyUpdate table id _ now).map Account.currentBalance = _
    rw [BaseCRUD.applyUpdate, List.map_map]
    refine List.map_congr_left ?_
    intro a _
    by_cases h : EntityMeta.getId a = id <;> simp [h, EntityMeta.setUpdated]

/-- C9 witness: a payload with initialBalance 500 and no explicit
currentBalance stores 500 in both columns, and archiving preserves the
sample account's balance column. -/
theorem createAccount_balance_invariant_witness :
    (AccountService.createAccount []
      { name := "Card", currency := "CNY", initialBalance := some 500,
        ledgerId := "led-1" } "acc-9" 0).1.currentBalance =
    (AccountService.createAccount []
      { name := "Card", currency := "CNY", initialBalance := some 500,
        ledgerId := "led-1" } "acc-9" 0).1.initialBalance ∧
    ((AccountService.archiveAccount [sampleAccount] "acc-1" 9).2).map
        Account.currentBalance = [sampleAccount].map Account.currentBalance :=
  ⟨createAccount_balance_invariant.1 []
      { name := "Card", currency := "CNY", initialBalance := some 500,
        ledgerId := "led-1" } "acc-9" 0 rfl,
   createAccount_balance_invariant.2.1 [sampleAccount] "acc-1" 9⟩

/-- C10: the read-modify-write helpers adjustBalance, toggleMarked and
toggleNeedsReview given a key matching no row return null and leave the
store entirely unchanged. -/
theorem rmw_missing_key_noop :
    (∀ (table : List Account) (id : String) (adjustment : Int) (now : Nat),
      BaseCRUD.findById table id = none →
      AccountService.adjustBalance table id adjustment now = (none, table)) ∧
    (∀ (table : List Transaction) (id : String) (now : Nat),
      BaseCRUD.findById table id = none →
      TransactionService.toggleMarked table id now = (none, table)) ∧
    (∀ (table : List Transaction) (id : String) (now : Nat),
      BaseCRUD.findById table id = none →
      TransactionService.toggleNeedsReview table id now = (none, table)) := by
  refine ⟨?_, ?_, ?_⟩
  · intro table id adjustment now h
    simp [AccountService.adjustBalance, h]
  · intro table id now h
    simp [TransactionService.toggleMarked, h]
  · intro table id now h
    simp [TransactionService.toggleNeedsReview, h]

/-- C10 witness: the three helpers at a key absent from nonempty
tables return null with the tables unchanged. -/
theorem rmw_missing_key_noop_witness :
    AccountService.adjustBalance [sampleAccount] "missing" 5 7 =
      (none, [sampleAccount]) ∧
    TransactionService.toggleMarked [sampleTransaction] "missing" 7 =
      (none, [sampleTransaction]) ∧
    TransactionService.toggleNeedsReview [sampleTransaction] "missing" 7 =
      (none, [sampleTransaction]) :=
  ⟨rmw_missing_key_noop.1 [sampleAccount] "missing" 5 7 (by decide),
   rmw_missing_key_noop.2.1 [sampleTransaction] "missing" 7 (by decide),
   rmw_missing_key_noop.2.2 [sampleTransaction] "missing" 7 (by decide)⟩

/-- C4: when initializeDatabase is entered by a second caller while the
first attempt is still in flight (after schedule u, caller i is idle,
initPromise holds promise p and p is unsettled), then under every
continuation schedule exactly one promise ever exists, at most one
DataSource construction and one cached service set are produced, every
settled caller observes the outcome of that single shared attempt (so
both resolve together or fail together), on failure the in-flight
marker is cleared with the engine left uninitialized so a retry can
start fresh, and once both callers are done the construction count is
exactly one with services cached exactly on success. -/
theorem initDatabase_single_flight (succeed i : Bool) (u v : List Bool) (p : Nat)
    (h1 : (runInit succeed u).cOf i = .idle)
    (h2 : (runInit succeed u).g.curPromise = some p)
    (h3 : (runInit succeed u).g.outcomes[p]? = some none) :
    ∀ σ : InitSys, σ = runInit succeed (u ++ i :: v) →
      p = 0 ∧
      σ.g.promiseCount = 1 ∧
      σ.g.constructions ≤ 1 ∧
      σ.g.serviceSets ≤ 1 ∧
      (∀ q r, σ.cOf i = .doneAwaited q r → q = p ∧ r = succeed) ∧
      (∀ q r, σ.cOf (!i) = .doneCreated q r → q = p ∧ r = succeed) ∧
      (succeed = false → σ.g.outcomes[p]? = some (some false) →
        σ.g.curPromise = none ∧ σ.g.ready = false) ∧
      ((∃ r, σ.cOf i = .doneAwaited p r) → (∃ r, σ.cOf (!i) = .doneCreated p r) →
        σ.g.constructions = 1 ∧ σ.g.serviceSets = (if succeed then 1 else 0) ∧
        σ.g.ready = succeed) := by
  intro σ hσ
  have hsolo := solo_characterize succeed i u h1
  have hp0 : p = 0 ∧
      (runInit succeed u = sideSys i gPend (.runningOpts 0) ∨
       runInit succeed u = sideSys i gPendBuilt (.runningInit 0)) := by
    rcases hsolo with h | h | h | h
    · rw [h, sideSys_g] at h2
      exact absurd h2 (by simp)
    · rw [h, sideSys_g] at h2
      exact ⟨(Option.some.inj h2).symm, Or.inl h⟩
    · rw [h, sideSys_g] at h2
      exact ⟨(Option.some.inj h2).symm, Or.inr h⟩
    · rw [h, sideSys_g] at h2 h3
      cases succeed
      · exact absurd h2 (by simp [gSettled])
      · have hp : p = 0 := (Option.some.inj (by simpa [gSettled] using h2)).symm
        rw [hp] at h3
        exact absurd h3 (by simp [gSettled])
  rcases hp0 with ⟨rfl, hstate⟩
  have hrun : runInit succeed (u ++ i :: v) =
      v.foldl (stepSys succeed) (stepSys succeed (runInit succeed u) i) := by
    simp [runInit, List.foldl_append]
  have hatt : attachedStates succeed i (runInit succeed (u ++ i :: v)) := by
    rw [hrun]
    apply attached_run
    rcases hstate with h | h <;> rw [h, stepSys_sideSys_self]
    · exact Or.inl rfl
    · exact Or.inr (Or.inl rfl)
  rw [← hσ] at hatt
  clear hrun hstate h1 h2 h3 hσ
  rcases hatt with h | h | h | h <;> rw [h] <;> clear h <;>
    simp only [attSys_g, attSys_cOf_self, attSys_cOf_other]
  · refine ⟨trivial, by decide, by decide, by decide, ?_, ?_, ?_, ?_⟩
    · intro q r hqr
      exact absurd hqr (by simp)
    · intro q r hqr
      exact absurd hqr (by simp)
    · intro hs h7
      exact absurd h7 (by decide)
    · rintro ⟨r1, hr1⟩ _
      exact absurd hr1 (by simp)
  · refine ⟨trivial, by decide, by decide, by decide, ?_, ?_, ?_, ?_⟩
    · intro q r hqr
      exact absurd hqr (by simp)
    · intro q r hqr
      exact absurd hqr (by simp)
    · intro hs h7
      exact absurd h7 (by decide)
    · rintro ⟨r1, hr1⟩ _
      exact absurd hr1 (by simp)
  · refine ⟨trivial, by cases succeed <;> decide, by cases succeed <;> decide,
      by cases succeed <;> decide, ?_, ?_, ?_, ?_⟩
    · intro q r hqr
      exact absurd hqr (by simp)
    · intro q r hqr
      injection hqr with hq hr
      exact ⟨hq.symm, hr.symm⟩
    · intro hs h7
      subst hs
      exact ⟨rfl, rfl⟩
    · rintro ⟨r1, hr1⟩ _
      exact absurd hr1 (by simp)
  · refine ⟨trivial, by cases succeed <;> decide, by cases succeed <;> decide,
      by cases succeed <;> decide, ?_, ?_, ?_, ?_⟩
    · intro q r hqr
      injection hqr with hq hr
      exact ⟨hq.symm, hr.symm⟩
    · intro q r hqr
      injection hqr with hq hr
      exact ⟨hq.symm, hr.symm⟩
    · intro hs h7
      subst hs
      exact ⟨rfl, rfl⟩
    · rintro _ _
      cases succeed
      · exact ⟨rfl, rfl, rfl⟩
      · exact ⟨rfl, rfl, rfl⟩

/-- C4 witness: a concrete interleaving in which caller true joins
while the attempt of caller false is pending after one segment, the
attempt succeeds, and both callers finish: one promise, one DataSource
construction, one cached service set. -/
theorem initDatabase_single_flight_witness :
    (runInit true ([false] ++ true :: [false, false, true])).g.promiseCount = 1 ∧
    (runInit true ([false] ++ true :: [false, false, true])).g.constructions = 1 ∧
    (runInit true ([false] ++ true :: [false, false, true])).g.serviceSets = 1 ∧
    (runInit true ([false] ++ true :: [false, false, true])).g.ready = true := by
  have h := initDatabase_single_flight true true [false] [false, false, true] 0
    (by decide) (by decide) (by decide)
    (runInit true ([false] ++ true :: [false, false, true])) rfl
  have h8 := h.2.2.2.2.2.2.2 ⟨true, by decide⟩ ⟨true, by decide⟩
  exact ⟨h.2.1, h8.1, by simpa using h8.2.1, h8.2.2⟩

/-- C5 counterexample: with the store holding a healthy image of rows
[1, 2] and the engine running on it, importing a corrupt blob succeeds
in writing the blob, then fails reinitialization: the call throws, yet
the previous store is gone (the persistence now holds the corrupt blob)
and every subsequent findAll fails, so the operation is neither a
complete replacement nor a failure that leaves the previous store
usable. -/
theorem importDatabase_corrupt_after_write_loses_store :
    (importDatabase true ⟨Blob.image [1, 2], some [1, 2]⟩ Blob.corrupt).1 =
      .error "Database initialization failed" ∧
    (importDatabase true ⟨Blob.image [1, 2], some [1, 2]⟩ Blob.corrupt).2 =
      ⟨Blob.corrupt, none⟩ ∧
    findAllRows (importDatabase true ⟨Blob.image [1, 2], some [1, 2]⟩ Blob.corrupt).2 =
      .error "Database not initialized. Call initializeDatabase() first." :=
  ⟨rfl, rfl, rfl⟩

/-- C5 (amended): importDatabase writes the blob into the persistence
target, tears down the connection and the cached services, clears the
in-flight marker and re-runs initialization; when the blob is a
well-formed image the whole store is replaced and findAll on any entity
reflects only the imported rows, whatever was stored before; when the
persistence write itself fails the previous store is untouched and
remains usable; but when the write succeeds and reinitialization fails
the call throws with the imported blob already persisted and the engine
left uninitialized, so failure atomicity holds only for failures at or
before the write. -/
theorem importDatabase_success_and_failure_modes :
    (∀ (st : BackupState) (rows : List Nat),
      importDatabase true st (Blob.image rows) =
        (.ok (), ⟨Blob.image rows, some rows⟩) ∧
      findAllRows (importDatabase true st (Blob.image rows)).2 = .ok rows) ∧
    (∀ (st : BackupState) (blob : Blob),
      (importDatabase false st blob).2 = st) ∧
    (∀ st : BackupState,
      (importDatabase true st Blob.corrupt).1 =
        .error "Database initialization failed" ∧
      (importDatabase true st Blob.corrupt).2 = ⟨Blob.corrupt, none⟩) :=
  ⟨fun _ _ => ⟨rfl, rfl⟩, fun _ _ => rfl, fun _ => ⟨rfl, rfl⟩⟩

end TrackExpenses
